import Mathlib

/-!
# Verification of the IoT-watch analytics claims

Shallow embedding of the analytics-relevant functions of the
`test-project-iot-watch` repository (frontend trend computation, history
window selection, temperature classification, clothing suggestion bands,
wind-direction lookup, health-score colouring) together with proofs and
refutations of the frozen specification claims.

Temperatures and scores are JavaScript numbers; we model them as rationals
(`ℚ`), timestamps as integers (`ℤ`, milliseconds since the epoch).
-/

/-- The trend labels produced by the client-side trend computation in
`fetchLatestTemperature` (`src/unnamed/part_007`).  The code uses the strings
`"up"`, `"down"`, `"stable"`; the UI renders `up` as "Rising" and `down` as
"Falling". -/
inductive Trend where
  | up
  | down
  | stable
deriving DecidableEq, Repr

/-- JavaScript falsiness of the global `window.previousTemperature`:
`undefined` (modelled as `none`) and the number `0` are falsy. -/
def isFalsyTemp : Option ℚ → Bool
  | none => true
  | some x => x == 0

/-- Embedding of the trend section of `fetchLatestTemperature`
(`src/unnamed/part_007`, lines 44–56):

```js
const latestTemperature = window.previousTemperature || temperature;
let trend = "stable";
if (temperature > latestTemperature) trend = "up";
else if (temperature < latestTemperature) trend = "down";
window.previousTemperature = temperature;
```

The hidden global `window.previousTemperature` is passed explicitly as the
first argument, and the updated global is returned as the second component of
the result. -/
def fetchLatestTemperatureStep (previousTemperature : Option ℚ)
    (temperature : ℚ) : Trend × Option ℚ :=
  let latestTemperature :=
    if isFalsyTemp previousTemperature then temperature
    else previousTemperature.getD temperature
  let trend :=
    if latestTemperature < temperature then Trend.up
    else if temperature < latestTemperature then Trend.down
    else Trend.stable
  (trend, some temperature)

/-- `C2`: the three reference trend vectors hold on the code:
current 5.00 against previous 5.00 is stable, current 5.10 against previous
5.00 is rising (`up`), and current 4.90 against previous 5.00 is falling
(`down`). -/
theorem trend_reference_vectors :
    (fetchLatestTemperatureStep (some 5) 5).1 = Trend.stable ∧
    (fetchLatestTemperatureStep (some 5) (51/10)).1 = Trend.up ∧
    (fetchLatestTemperatureStep (some 5) (49/10)).1 = Trend.down := by
  norm_num [fetchLatestTemperatureStep, isFalsyTemp]

/-- Evaluation lemma: for a non-zero (hence non-falsy) stored previous
temperature `p`, the step compares the current temperature against `p`
directly and stores the current temperature. -/
theorem fetchLatestTemperatureStep_some (p c : ℚ) (hp : p ≠ 0) :
    fetchLatestTemperatureStep (some p) c =
      (if p < c then Trend.up else if c < p then Trend.down else Trend.stable,
       some c) := by
  simp [fetchLatestTemperatureStep, isFalsyTemp, hp]

/-- `C1` counterexample: for current 5.01 against previous 5.00 the absolute
difference is strictly between 0 and 0.05, yet the code classifies the trend
as `up`, not `stable` — there is no epsilon tolerance in the code. -/
theorem trend_no_epsilon_counterexample :
    0 < |(501/100 : ℚ) - 5| ∧ |(501/100 : ℚ) - 5| < 1/20 ∧
    (fetchLatestTemperatureStep (some 5) (501/100)).1 ≠ Trend.stable := by
  refine ⟨?_, ?_, ?_⟩
  · rw [show (501/100 : ℚ) - 5 = 1/100 by norm_num]
    norm_num
  · rw [show (501/100 : ℚ) - 5 = 1/100 by norm_num, abs_of_pos (by norm_num)]
    norm_num
  · norm_num [fetchLatestTemperatureStep, isFalsyTemp]
    exact fun h => nomatch h

/-- `C1` amended: when a previous temperature exists and is non-zero (hence
non-falsy for the `||` guard), the code returns `stable` exactly when current
equals previous, `up` (rising) exactly when current is strictly greater, and
`down` (falling) exactly when current is strictly smaller; there is no
epsilon band. -/
theorem trend_exact_comparison (p c : ℚ) (hp : p ≠ 0) :
    ((fetchLatestTemperatureStep (some p) c).1 = Trend.stable ↔ c = p) ∧
    ((fetchLatestTemperatureStep (some p) c).1 = Trend.up ↔ p < c) ∧
    ((fetchLatestTemperatureStep (some p) c).1 = Trend.down ↔ c < p) := by
  rw [fetchLatestTemperatureStep_some p c hp]
  rcases lt_trichotomy p c with h | h | h
  · rw [if_pos h]
    exact ⟨⟨fun habs => (nomatch habs), fun hcp => absurd (hcp ▸ h) (lt_irrefl p)⟩,
      ⟨fun _ => h, fun _ => rfl⟩,
      ⟨fun habs => (nomatch habs), fun hlt => absurd h (not_lt.mpr hlt.le)⟩⟩
  · subst h
    rw [if_neg (lt_irrefl p), if_neg (lt_irrefl p)]
    exact ⟨⟨fun _ => rfl, fun _ => rfl⟩,
      ⟨fun habs => (nomatch habs), fun hlt => absurd hlt (lt_irrefl p)⟩,
      ⟨fun habs => (nomatch habs), fun hlt => absurd hlt (lt_irrefl p)⟩⟩
  · rw [if_neg (not_lt.mpr h.le), if_pos h]
    exact ⟨⟨fun habs => (nomatch habs), fun hcp => absurd (hcp ▸ h) (lt_irrefl p)⟩,
      ⟨fun habs => (nomatch habs), fun hpc => absurd h (not_lt.mpr hpc.le)⟩,
      ⟨fun _ => h, fun _ => rfl⟩⟩

/-- Witness for `trend_exact_comparison` at previous 5, current 6. -/
theorem trend_exact_comparison_witness :
    ((fetchLatestTemperatureStep (some 5) 6).1 = Trend.stable ↔ (6 : ℚ) = 5) ∧
    ((fetchLatestTemperatureStep (some 5) 6).1 = Trend.up ↔ (5 : ℚ) < 6) ∧
    ((fetchLatestTemperatureStep (some 5) 6).1 = Trend.down ↔ (6 : ℚ) < 5) :=
  trend_exact_comparison 5 6 (by norm_num)

/-- `C3` counterexample: trend computation is not independent of the hidden
`window.previousTemperature` state — two evaluations with the same current
temperature 5 but different hidden state (4 versus 6) yield different
trends — and evaluating mutates that hidden state (state 4 becomes 5,
observable by the next evaluation). -/
theorem trend_hidden_state_counterexample :
    (fetchLatestTemperatureStep (some 4) 5).1 ≠
      (fetchLatestTemperatureStep (some 6) 5).1 ∧
    (fetchLatestTemperatureStep (some 4) 5).2 ≠ some 4 := by
  norm_num [fetchLatestTemperatureStep, isFalsyTemp]
  all_goals exact fun h => nomatch h

/-- `C3` amended: in the explicit-state-passing embedding, trend computation
is a function of the pair (hidden previous-temperature state, current
temperature): every evaluation overwrites the hidden global with the current
temperature, there exist states under which the same current temperature
yields different trends, and evaluation does mutate state observable by later
evaluations. -/
theorem trend_state_dependence :
    (∀ (s : Option ℚ) (t : ℚ), (fetchLatestTemperatureStep s t).2 = some t) ∧
    (∃ (t : ℚ) (s₁ s₂ : Option ℚ),
      (fetchLatestTemperatureStep s₁ t).1 ≠ (fetchLatestTemperatureStep s₂ t).1) ∧
    (∃ (s : Option ℚ) (t : ℚ), (fetchLatestTemperatureStep s t).2 ≠ s) := by
  refine ⟨fun s t => rfl, ⟨5, some 4, some 6, ?_⟩, ⟨none, 5, ?_⟩⟩
  · norm_num [fetchLatestTemperatureStep, isFalsyTemp]
    exact fun h => nomatch h
  · norm_num [fetchLatestTemperatureStep]
    exact fun h => nomatch h

/-- `C4` counterexample: when no previous reading exists (state `none`), the
code returns a bare `stable` and its full output — trend and updated state —
is identical to the output produced when a previous reading equal to the
current one exists, so no insufficient-history condition is signalled. -/
theorem trend_no_history_signal_counterexample :
    (fetchLatestTemperatureStep none 5).1 = Trend.stable ∧
    fetchLatestTemperatureStep none 5 = fetchLatestTemperatureStep (some 5) 5 := by
  constructor
  · norm_num [fetchLatestTemperatureStep, isFalsyTemp]
  · norm_num [fetchLatestTemperatureStep, isFalsyTemp]

/-- `C4` amended: when no previous reading exists the code returns `stable`,
but it does not signal insufficient history in any way: for every current
temperature, the output is exactly the output produced when the previous
reading equals the current one. -/
theorem trend_no_history_bare_stable (t : ℚ) :
    (fetchLatestTemperatureStep none t).1 = Trend.stable ∧
    fetchLatestTemperatureStep none t = fetchLatestTemperatureStep (some t) t := by
  refine ⟨by simp [fetchLatestTemperatureStep, isFalsyTemp], ?_⟩
  by_cases h : t = 0
  · subst h
    simp [fetchLatestTemperatureStep, isFalsyTemp]
  · rw [fetchLatestTemperatureStep_some t t h]
    simp [fetchLatestTemperatureStep, isFalsyTemp]

/-- Embedding of `isNormalTemperature`
(`src/frontend/src/components/WeeklyStatsEnhanced.jsx`, lines 261–264):
`return temp >= -10 && temp <= 50;`. -/
def isNormalTemperature (temp : ℚ) : Bool :=
  decide (-10 ≤ temp) && decide (temp ≤ 50)

/-- Modelled from the spec: the Reading Store and its `append` contract are
not part of the frontend sources; per the spec, `append(reading)` fails with
`ValidationError` iff the temperature is outside the physically plausible
range −90°C to 60°C or the timestamp is in the future beyond a small
clock-skew tolerance.  `appendAccepts` is true iff the reading is accepted. -/
def appendAccepts (temperature : ℚ) (timestamp now skew : ℤ) : Bool :=
  decide (-90 ≤ temperature) && decide (temperature ≤ 60) &&
    decide (timestamp ≤ now + skew)

/-- `C5` counterexample: a reading of −50°C with a current (non-future)
timestamp is inside the spec's plausible range, hence accepted by the
spec-modelled `append`, yet the code's `isNormalTemperature` classifies it
as abnormal — the code's normal range is [−10, 50], not [−90, 60]. -/
theorem isNormalTemperature_counterexample :
    appendAccepts (-50) 0 0 0 = true ∧ isNormalTemperature (-50) = false := by
  constructor
  · norm_num [appendAccepts]
  · norm_num [isNormalTemperature]

/-- `C5` amended: the code's `isNormalTemperature` classifies a temperature
as normal exactly when it lies in [−10, 50]; temperatures in [−90, −10) or
(50, 60] — accepted as plausible by the spec's append contract — are
classified as abnormal. -/
theorem isNormalTemperature_iff (t : ℚ) :
    (isNormalTemperature t = true ↔ (-10 ≤ t ∧ t ≤ 50)) ∧
    (appendAccepts t 0 0 0 = true ↔ (-90 ≤ t ∧ t ≤ 60)) := by
  constructor
  · simp [isNormalTemperature]
  · simp [appendAccepts]

/-- Embedding of `getClothingSuggestion`
(`src/frontend/src/components/ClothingSuggestion.jsx`, lines 11–91): `null`
input yields `null`; otherwise the first matching band of the cascade
`t < 5 / t < 10 / t < 15 / t < 20 / t < 25 / t < 30 / else` selects the
suggestion object (title and suggestion list). -/
def getClothingSuggestion (temperature : Option ℚ) :
    Option (String × List String) :=
  match temperature with
  | none => none
  | some t =>
    if t < 5 then some ("Very Cold Weather",
      ["Heavy winter coat", "Thermal underwear", "Wool sweater",
       "Winter boots", "Gloves and scarf", "Warm hat"])
    else if t < 10 then some ("Cold Weather",
      ["Winter coat or heavy jacket", "Sweater or fleece", "Long pants",
       "Closed-toe shoes", "Light gloves"])
    else if t < 15 then some ("Cool Weather",
      ["Light jacket or coat", "Long-sleeve shirt", "Long pants",
       "Closed-toe shoes", "Light scarf (optional)"])
    else if t < 20 then some ("Mild Weather",
      ["Light sweater or cardigan", "Long-sleeve shirt", "Long pants",
       "Comfortable shoes"])
    else if t < 25 then some ("Pleasant Weather",
      ["Light long-sleeve shirt", "Light pants or jeans", "Comfortable shoes",
       "Light jacket (optional)"])
    else if t < 30 then some ("Warm Weather",
      ["Short-sleeve shirt", "Light pants or shorts", "Comfortable shoes",
       "Sunglasses"])
    else some ("Hot Weather",
      ["Light, breathable short-sleeve shirt", "Shorts or light pants",
       "Sandals or breathable shoes", "Sunglasses", "Hat for sun protection"])

/-- `C8`: `getClothingSuggestion` returns `null` exactly on `null` input; on
every numeric temperature it returns exactly one suggestion, whose title is
selected by the first cutoff among 5, 10, 15, 20, 25, 30 strictly exceeding
the temperature (30°C and above yields Hot Weather); the seven bands
partition the numeric line with boundary values falling into the higher band
(5 yields Cold Weather, not Very Cold Weather). -/
theorem getClothingSuggestion_bands :
    getClothingSuggestion none = none ∧
    (∀ t : ℚ, (getClothingSuggestion (some t)).isSome = true) ∧
    (∀ t : ℚ,
      ((getClothingSuggestion (some t)).map Prod.fst = some "Very Cold Weather"
        ↔ t < 5) ∧
      ((getClothingSuggestion (some t)).map Prod.fst = some "Cold Weather"
        ↔ 5 ≤ t ∧ t < 10) ∧
      ((getClothingSuggestion (some t)).map Prod.fst = some "Cool Weather"
        ↔ 10 ≤ t ∧ t < 15) ∧
      ((getClothingSuggestion (some t)).map Prod.fst = some "Mild Weather"
        ↔ 15 ≤ t ∧ t < 20) ∧
      ((getClothingSuggestion (some t)).map Prod.fst = some "Pleasant Weather"
        ↔ 20 ≤ t ∧ t < 25) ∧
      ((getClothingSuggestion (some t)).map Prod.fst = some "Warm Weather"
        ↔ 25 ≤ t ∧ t < 30) ∧
      ((getClothingSuggestion (some t)).map Prod.fst = some "Hot Weather"
        ↔ 30 ≤ t)) := by
  refine ⟨rfl, fun t => ?_, fun t => ?_⟩
  · simp only [getClothingSuggestion]
    split_ifs <;> rfl
  · by_cases h5 : t < 5
    · have he : (getClothingSuggestion (some t)).map Prod.fst =
          some "Very Cold Weather" := by
        simp [getClothingSuggestion, h5]
      rw [he]
      refine ⟨?_, ?_, ?_, ?_, ?_, ?_, ?_⟩ <;> simp [not_and, not_lt] <;>
        (try constructor) <;> intros <;> linarith
    · have h5' : 5 ≤ t := not_lt.mp h5
      by_cases h10 : t < 10
      · have he : (getClothingSuggestion (some t)).map Prod.fst =
            some "Cold Weather" := by
          simp [getClothingSuggestion, h5, h10]
        rw [he]
        refine ⟨?_, ?_, ?_, ?_, ?_, ?_, ?_⟩ <;> simp [not_and, not_lt] <;>
          (try constructor) <;> intros <;> linarith
      · have h10' : 10 ≤ t := not_lt.mp h10
        by_cases h15 : t < 15
        · have he : (getClothingSuggestion (some t)).map Prod.fst =
              some "Cool Weather" := by
            simp [getClothingSuggestion, h5, h10, h15]
          rw [he]
          refine ⟨?_, ?_, ?_, ?_, ?_, ?_, ?_⟩ <;> simp [not_and, not_lt] <;>
            (try constructor) <;> intros <;> linarith
        · have h15' : 15 ≤ t := not_lt.mp h15
          by_cases h20 : t < 20
          · have he : (getClothingSuggestion (some t)).map Prod.fst =
                some "Mild Weather" := by
              simp [getClothingSuggestion, h5, h10, h15, h20]
            rw [he]
            refine ⟨?_, ?_, ?_, ?_, ?_, ?_, ?_⟩ <;> simp [not_and, not_lt] <;>
              (try constructor) <;> intros <;> linarith
          · have h20' : 20 ≤ t := not_lt.mp h20
            by_cases h25 : t < 25
            · have he : (getClothingSuggestion (some t)).map Prod.fst =
                  some "Pleasant Weather" := by
                simp [getClothingSuggestion, h5, h10, h15, h20, h25]
              rw [he]
              refine ⟨?_, ?_, ?_, ?_, ?_, ?_, ?_⟩ <;> simp [not_and, not_lt] <;>
                (try constructor) <;> intros <;> linarith
            · have h25' : 25 ≤ t := not_lt.mp h25
              by_cases h30 : t < 30
              · have he : (getClothingSuggestion (some t)).map Prod.fst =
                    some "Warm Weather" := by
                  simp [getClothingSuggestion, h5, h10, h15, h20, h25, h30]
                rw [he]
                refine ⟨?_, ?_, ?_, ?_, ?_, ?_, ?_⟩ <;> simp [not_and, not_lt] <;>
                  (try constructor) <;> intros <;> linarith
              · have h30' : 30 ≤ t := not_lt.mp h30
                have he : (getClothingSuggestion (some t)).map Prod.fst =
                    some "Hot Weather" := by
                  simp [getClothingSuggestion, h5, h10, h15, h20, h25, h30]
                rw [he]
                refine ⟨?_, ?_, ?_, ?_, ?_, ?_, ?_⟩ <;> simp [not_and, not_lt] <;>
                  (try constructor) <;> intros <;> linarith

/-- Embedding of `getHealthColor`
(`src/test-project-iot-watch/frontend/src/components/CorsTest.jsx`,
lines 245–249). -/
def getHealthColor (score : ℚ) : String :=
  if 80 ≤ score then "text-green-600"
  else if 60 ≤ score then "text-yellow-600"
  else "text-red-600"

/-- Embedding of `getHealthBg`
(`src/test-project-iot-watch/frontend/src/components/CorsTest.jsx`,
lines 253–258). -/
def getHealthBg (score : ℚ) : String :=
  if 80 ≤ score then "bg-green-100"
  else if 60 ≤ score then "bg-yellow-100"
  else "bg-red-100"

/-- `C10`: `getHealthColor` and `getHealthBg` classify every score with the
same thresholds: the text colour is green iff the background is green
(iff 80 ≤ score), yellow iff the background is yellow (iff 60 ≤ score < 80),
and red iff the background is red (iff score < 60). -/
theorem health_color_bg_agree (s : ℚ) :
    (getHealthColor s = "text-green-600" ↔ getHealthBg s = "bg-green-100") ∧
    (getHealthColor s = "text-yellow-600" ↔ getHealthBg s = "bg-yellow-100") ∧
    (getHealthColor s = "text-red-600" ↔ getHealthBg s = "bg-red-100") ∧
    (getHealthColor s = "text-green-600" ↔ 80 ≤ s) ∧
    (getHealthColor s = "text-yellow-600" ↔ (60 ≤ s ∧ s < 80)) ∧
    (getHealthColor s = "text-red-600" ↔ s < 60) := by
  by_cases h80 : 80 ≤ s
  · refine ⟨?_, ?_, ?_, ?_, ?_, ?_⟩ <;>
      simp [getHealthColor, getHealthBg, h80, not_and, not_lt] <;>
      (try constructor) <;> intros <;> linarith
  · have h80' : s < 80 := not_le.mp h80
    by_cases h60 : 60 ≤ s
    · refine ⟨?_, ?_, ?_, ?_, ?_, ?_⟩ <;>
        simp [getHealthColor, getHealthBg, h80, h60, not_and, not_lt] <;>
        (try constructor) <;> intros <;> linarith
    · have h60' : s < 60 := not_le.mp h60
      refine ⟨?_, ?_, ?_, ?_, ?_, ?_⟩ <;>
        simp [getHealthColor, getHealthBg, h80, h60, not_and, not_lt] <;>
        (try constructor) <;> intros <;> linarith

/-- The 16-entry compass array of `getWindDirection`
(`src/test-project-iot-watch/frontend/src/components/CorsTest.jsx`,
lines 826–833). -/
def directions : List String :=
  ["N", "NNE", "NE", "ENE", "E", "ESE", "SE", "SSE",
   "S", "SSW", "SW", "WSW", "W", "WNW", "NW", "NNW"]

/-- JavaScript `Math.round`: rounds half-way cases up, i.e. `⌊x + 1/2⌋`. -/
def jsRound (x : ℚ) : ℤ := ⌊x + 1/2⌋

/-- Embedding of `getWindDirection`
(`src/test-project-iot-watch/frontend/src/components/CorsTest.jsx`,
lines 826–833): the guard `if (!degrees)` tests JavaScript falsiness, so the
number 0 takes the `N/A` branch; otherwise the array is indexed at
`Math.round(degrees / 22.5) % 16`, where JavaScript `%` is the truncating
remainder (`Int.tmod`), and an out-of-bounds access would give `undefined`. -/
def getWindDirection (degrees : ℚ) : String :=
  if degrees = 0 then "N/A"
  else
    let index := (jsRound (degrees / (45/2))).tmod 16
    directions.getD index.toNat "undefined"

/-- Any in-bounds read of the compass array yields one of its 16 labels. -/
theorem directions_getD_mem :
    ∀ n, n < 16 → directions.getD n "undefined" ∈ directions := by decide

/-- `C9`: for every strictly positive wind direction the compass array is
indexed in bounds and one of the 16 labels is returned, with 360 wrapping
back to `N`; but the due-north bearing 0 returns `N/A` because the
missing-value guard tests falsiness. -/
theorem getWindDirection_characterisation :
    (∀ d : ℚ, 0 < d → getWindDirection d ∈ directions) ∧
    getWindDirection 360 = "N" ∧
    getWindDirection 0 = "N/A" := by
  refine ⟨fun d hd => ?_, ?_, rfl⟩
  · unfold getWindDirection
    rw [if_neg (ne_of_gt hd)]
    have hq : (0 : ℚ) < d / (45/2) := div_pos hd (by norm_num)
    have h1 : 0 ≤ jsRound (d / (45/2)) := by
      unfold jsRound
      apply Int.floor_nonneg.mpr
      linarith
    have h2 : 0 ≤ (jsRound (d / (45/2))).tmod 16 := Int.tmod_nonneg 16 h1
    have h3 : (jsRound (d / (45/2))).tmod 16 < 16 :=
      Int.tmod_lt_of_pos _ (by norm_num)
    exact directions_getD_mem _ (by omega)
  · have h : jsRound ((360 : ℚ) / (45/2)) = 16 := by
      unfold jsRound
      norm_num
    unfold getWindDirection
    rw [if_neg (by norm_num : (360 : ℚ) ≠ 0)]
    rw [h]
    rfl

/-- Witness for `getWindDirection_characterisation` at 90 degrees. -/
theorem getWindDirection_characterisation_witness :
    getWindDirection 90 ∈ directions :=
  getWindDirection_characterisation.1 90 (by norm_num)

/-- Model of JavaScript `Array.prototype.findIndex`, with the not-found
value −1 rendered as `none`. -/
def findIndexOpt (p : ℤ → Bool) : List ℤ → Option ℕ
  | [] => none
  | t :: ts => if p t then some 0 else (findIndexOpt p ts).map (· + 1)

/-- Embedding of the window-selection logic of `fetchTemperatureHistory`
(`src/frontend/src/api/history.js`, lines 22–35):

```js
const startTime = new Date(Date.now() - 10 * 60 * 60 * 1000).toISOString();
const startIndex = timestamps.findIndex((t) => new Date(t) >= new Date(startTime));
if (startIndex === -1) throw ...;
const lastTimestamps = timestamps.slice(startIndex, startIndex + 10);
```

Timestamps are integers (milliseconds since the epoch); the thrown error is
rendered as `none`, and `slice(i, i + 10)` as `drop i` followed by
`take 10`. -/
def fetchTemperatureHistorySelect (now : ℤ) (timestamps : List ℤ) :
    Option (List ℤ) :=
  let startTime := now - 10 * 60 * 60 * 1000
  match findIndexOpt (fun t => decide (startTime ≤ t)) timestamps with
  | none => none
  | some i => some ((timestamps.drop i).take 10)

/-- In a sorted list, every element from the first index satisfying
`a ≤ ·` onwards is at least `a`. -/
theorem findIndexOpt_drop_bound (a : ℤ) :
    ∀ (l : List ℤ), l.Sorted (· ≤ ·) →
      ∀ i, findIndexOpt (fun t => decide (a ≤ t)) l = some i →
      ∀ x ∈ l.drop i, a ≤ x := by
  intro l
  induction l with
  | nil =>
    intro _ i hi
    simp [findIndexOpt] at hi
  | cons b tl ih =>
    intro hs i hi
    rw [List.sorted_cons] at hs
    by_cases hb : a ≤ b
    · have heq : findIndexOpt (fun t => decide (a ≤ t)) (b :: tl) = some 0 := by
        simp [findIndexOpt, hb]
      rw [heq] at hi
      injection hi with hi
      subst hi
      intro x hx
      rw [List.drop_zero] at hx
      rcases List.mem_cons.mp hx with rfl | hx'
      · exact hb
      · exact le_trans hb (hs.1 x hx')
    · have heq : findIndexOpt (fun t => decide (a ≤ t)) (b :: tl) =
          (findIndexOpt (fun t => decide (a ≤ t)) tl).map (· + 1) := by
        simp [findIndexOpt, hb]
      rw [heq, Option.map_eq_some'] at hi
      obtain ⟨j, hj, hji⟩ := hi
      subst hji
      intro x hx
      rw [List.drop_succ_cons] at hx
      exact ih hs.2 j hj x hx

/-- `C6` counterexample: with the current time at epoch 0 and hourly data
running from two hours in the past to seven hours in the future (as the
forecast endpoint returns), the selection returns all ten entries, including
the timestamp 3600000 (one hour in the future), which is not strictly before
the end `now` of the trailing 10-hour window — a future forecast reading is
returned. -/
theorem history_future_counterexample :
    fetchTemperatureHistorySelect 0
      [-7200000, -3600000, 0, 3600000, 7200000, 10800000, 14400000,
       18000000, 21600000, 25200000] =
      some [-7200000, -3600000, 0, 3600000, 7200000, 10800000, 14400000,
       18000000, 21600000, 25200000] ∧
    (3600000 : ℤ) ∈ [(-7200000 : ℤ), -3600000, 0, 3600000, 7200000, 10800000,
       14400000, 18000000, 21600000, 25200000] ∧
    ¬((3600000 : ℤ) < 0) := by
  refine ⟨rfl, by decide, by decide⟩

/-- `C6` amended: when the hourly timestamp list is sorted ascending, every
timestamp returned by the selection is at least `now` minus 10 hours
(36000000 ms); the upper end of the window is not enforced — the code takes
the 10 entries following the first in-window index, which can include
timestamps at or after `now`. -/
theorem history_window_lower_bound (now : ℤ) (ts l : List ℤ)
    (hs : ts.Sorted (· ≤ ·))
    (h : fetchTemperatureHistorySelect now ts = some l) :
    ∀ x ∈ l, now - 36000000 ≤ x := by
  simp only [fetchTemperatureHistorySelect] at h
  cases hfi : findIndexOpt (fun t => decide (now - 10 * 60 * 60 * 1000 ≤ t)) ts with
  | none =>
    rw [hfi] at h
    simp at h
  | some i =>
    rw [hfi] at h
    simp only [Option.some.injEq] at h
    subst h
    intro x hx
    have hx' : x ∈ ts.drop i := List.take_subset _ _ hx
    have hb := findIndexOpt_drop_bound (now - 10 * 60 * 60 * 1000) ts hs i hfi x hx'
    linarith

/-- Witness for `history_window_lower_bound` on the sorted two-element list
`[-3600000, 0]` with `now = 0`. -/
theorem history_window_lower_bound_witness :
    fetchTemperatureHistorySelect 0 [-3600000, 0] = some [-3600000, 0] ∧
    (0 : ℤ) - 36000000 ≤ -3600000 :=
  ⟨rfl, history_window_lower_bound 0 [-3600000, 0] [-3600000, 0]
    (by norm_num [List.sorted_cons]) rfl (-3600000) (by decide)⟩

/-- Modelled from the spec: the Anomaly Detector lives in the backend, which
is absent from the sources (the frontend `fetchAnomalies` only queries
`/api/ai/anomalies`).  Per the spec, each candidate reading gets
`z = (value − μ) / σ` against the baseline mean `μ` and standard deviation
`σ`; if `σ = 0` no reading is anomalous; otherwise a reading is flagged when
`|z|` exceeds the severity threshold. -/
def zScore (μ σ value : ℚ) : ℚ := (value - μ) / σ

/-- Modelled from the spec: the list of readings flagged as anomalous at a
given severity threshold. -/
def flaggedReadings (readings : List ℚ) (μ σ threshold : ℚ) : List ℚ :=
  if σ = 0 then []
  else readings.filter (fun v => decide (threshold < |zScore μ σ v|))

/-- Modelled from the spec: the anomaly count reported for a fixed analysis
window and baseline at a given severity threshold. -/
def anomalyCount (readings : List ℚ) (μ σ threshold : ℚ) : ℕ :=
  (flaggedReadings readings μ σ threshold).length

/-- Filtering with a stronger predicate keeps at most as many elements. -/
theorem filter_length_imp {α : Type} (l : List α) (p q : α → Bool)
    (h : ∀ x, q x = true → p x = true) :
    (l.filter q).length ≤ (l.filter p).length := by
  induction l with
  | nil => simp
  | cons a tl ih =>
    rw [List.filter_cons, List.filter_cons]
    by_cases hq : q a = true
    · rw [if_pos hq, if_pos (h a hq)]
      simpa using ih
    · rw [if_neg hq]
      by_cases hp : p a = true
      · rw [if_pos hp]
        exact le_trans ih (Nat.le_succ _)
      · rw [if_neg hp]
        exact ih

/-- `C7`: for a fixed analysis window (readings) and fixed baseline (μ, σ),
the anomaly count is monotonically non-increasing in the severity threshold:
for thresholds t₁ ≤ t₂, the count at t₂ is at most the count at t₁. -/
theorem anomaly_count_monotone (readings : List ℚ) (μ σ t₁ t₂ : ℚ)
    (h : t₁ ≤ t₂) :
    anomalyCount readings μ σ t₂ ≤ anomalyCount readings μ σ t₁ := by
  unfold anomalyCount flaggedReadings
  by_cases hσ : σ = 0
  · simp [hσ]
  · rw [if_neg hσ, if_neg hσ]
    apply filter_length_imp
    intro x hx
    simp only [decide_eq_true_eq] at hx ⊢
    linarith

/-- Witness for `anomaly_count_monotone` on the window `[0, 10]` with
baseline mean 0, standard deviation 1, thresholds 2 ≤ 3. -/
theorem anomaly_count_monotone_witness :
    anomalyCount [0, 10] 0 1 3 ≤ anomalyCount [0, 10] 0 1 2 :=
  anomaly_count_monotone [0, 10] 0 1 2 3 (by norm_num)
